import Mathlib

/-!
Verification development for the immigration-policy simulation engine of
`src/script.js`.  The repository ships two concatenated near-duplicate
variants of the engine: variant A (roughly lines 1-1633 of the combined
file) and variant B (roughly lines 1634-3219).  Both are embedded below,
in namespaces `A` and `B`, translated directly from the JavaScript source.

Modelling conventions:
* JavaScript numbers are modelled as rationals (`ℚ`); every arithmetic
  operation appearing in the claims is exact at this granularity
  (`Math.floor`, `Math.max`, `Math.min`, `Math.abs`, `+`, `-`, `*`, `/`).
* `Math.random()` draws are passed in explicitly as the fields of an
  `Rng` record, one field per call site, so a tick is a pure function of
  the prior state and the draws.
* DOM/3D side effects (`showNotification`, `showAchievement`,
  `spawnImmigrants`, `endGame`'s menu, `showYearSummary`) are modelled as
  an emitted event list; notification texts are abstracted to a tag
  naming the call site, with the severity string kept verbatim.
  Pure-presentation calls with no event content (`updateHUD`,
  `updateWeather`, `createParticleEffect`, `logEvent`, button class
  toggling) emit nothing.
-/

/-- JavaScript `Math.floor` on a rational, as a rational.  Written with
integer division by the (positive) denominator so that it computes. -/
def jsFloor (q : ℚ) : ℚ := ((q.num / (q.den : ℤ) : ℤ) : ℚ)

/-- Difficulty tiers (`gameState.difficulty`). -/
inductive Difficulty where
  | easy
  | medium
  | hard
deriving DecidableEq

/-- One row of `gameState.difficultySettings`. -/
structure DiffSettings where
  budget : ℚ
  happinessDrain : ℚ
  unempMultiplier : ℚ
  gdpMultiplier : ℚ

/-- The `difficultySettings` table, identical in both variants. -/
def difficultySettings : Difficulty → DiffSettings
  | .easy => ⟨10000, 1, 0.7, 1.3⟩
  | .medium => ⟨5000, 2, 1.0, 1.0⟩
  | .hard => ⟨2000, 3.5, 1.5, 0.7⟩

/-- The six policy identifiers (keys of `gameState.policies`). -/
inductive PolicyName where
  | openBorders
  | skilledWorker
  | refugee
  | family
  | investor
  | strict
deriving DecidableEq

/-- The `gameState.policies` record of six booleans. -/
structure Policies where
  openBorders : Bool
  skilledWorker : Bool
  refugee : Bool
  family : Bool
  investor : Bool
  strict : Bool
deriving DecidableEq

def Policies.get (p : Policies) : PolicyName → Bool
  | .openBorders => p.openBorders
  | .skilledWorker => p.skilledWorker
  | .refugee => p.refugee
  | .family => p.family
  | .investor => p.investor
  | .strict => p.strict

def Policies.set (p : Policies) : PolicyName → Bool → Policies
  | .openBorders, b => { p with openBorders := b }
  | .skilledWorker, b => { p with skilledWorker := b }
  | .refugee, b => { p with refugee := b }
  | .family, b => { p with family := b }
  | .investor, b => { p with investor := b }
  | .strict, b => { p with strict := b }

/-- The `gameState.policyCosts` record (the two variants initialise it
with different constants). -/
structure PolicyCosts where
  openBorders : ℚ
  skilledWorker : ℚ
  refugee : ℚ
  family : ℚ
  investor : ℚ
  strict : ℚ
deriving DecidableEq

def PolicyCosts.get (c : PolicyCosts) : PolicyName → ℚ
  | .openBorders => c.openBorders
  | .skilledWorker => c.skilledWorker
  | .refugee => c.refugee
  | .family => c.family
  | .investor => c.investor
  | .strict => c.strict

/-- Events emitted towards the presentation layer.  `notification` texts
are abstracted to a call-site tag plus the verbatim severity string. -/
inductive Event where
  | notification (tag : String) (severity : String)
  | spawnImmigrants (count : ℚ) (ptype : String)
  | achievementUnlocked (id : String)
  | yearSummary (pop gdp hap unemp budget : ℚ)
  | gameOver (reason : String)
deriving DecidableEq

/-- The mutable `gameState` snapshot (union of the fields used by the two
variants; `refugeeProgramStarted` exists only in variant A and is never
read or written by variant B's functions). -/
structure GameState where
  started : Bool
  paused : Bool
  difficulty : Difficulty
  population : ℚ
  gdp : ℚ
  happiness : ℚ
  unemployment : ℚ
  budget : ℚ
  score : ℚ
  year : ℚ
  achievements : List String
  refugeeProgramStarted : Option ℚ
  policies : Policies
  policyCosts : PolicyCosts
deriving DecidableEq

/-- One `Math.random()` draw per call site of a tick, each a rational in
`[0, 1)`. -/
structure Rng where
  noise : ℚ
  skill : ℚ
  family : ℚ
  inv : ℚ
  eventTrigger : ℚ
  eventSelect : ℚ
  boom : ℚ
  severity : ℚ
  openBorders : ℚ

/-- The weighted-selection scan shared by both `triggerRandomEvent`
variants: iterate in declaration order, firing when the running random
value falls below the current weight, otherwise subtracting the weight. -/
def chooseWeighted {α : Type} : List (α × ℚ) → ℚ → Option α
  | [], _ => none
  | (a, w) :: rest, r => if r < w then some a else chooseWeighted rest (r - w)

/-- Specification-side description of weighted selection ("the first
event whose cumulative weight exceeds r"): return the first element whose
cumulative weight (accumulated in `c`) strictly exceeds `r`. -/
def firstCumAbove {α : Type} : List (α × ℚ) → ℚ → ℚ → Option α
  | [], _, _ => none
  | (a, w) :: rest, c, r => if r < c + w then some a else firstCumAbove rest (c + w) r

/-- The achievements table of `checkAchievements` (identical in both
variants): id plus predicate over the state. -/
def achievementsTable : List (String × (GameState → Bool)) :=
  [ ("pop_5000", fun s => decide (5000 ≤ s.population)),
    ("pop_10000", fun s => decide (10000 ≤ s.population)),
    ("gdp_25000", fun s => decide (25000 ≤ s.gdp)),
    ("gdp_50000", fun s => decide (50000 ≤ s.gdp)),
    ("happy_90", fun s => decide (90 ≤ s.happiness)),
    ("unemp_2", fun s => decide (s.unemployment ≤ 2)),
    ("year_10", fun s => decide (2028 ≤ s.year)),
    ("score_10k", fun s => decide (10000 ≤ s.score)) ]

/-- The `achievements.forEach` loop of `checkAchievements`: each entry not
yet in the set whose condition holds is added and an achievement event is
emitted, threading the state left to right. -/
def runAchievements : List (String × (GameState → Bool)) → GameState → GameState × List Event
  | [], s => (s, [])
  | (id, cond) :: rest, s =>
    if id ∉ s.achievements ∧ cond s = true then
      let s1 : GameState := { s with achievements := s.achievements ++ [id] }
      let out := runAchievements rest s1
      (out.1, Event.achievementUnlocked id :: out.2)
    else
      runAchievements rest s

/-- Source `checkAchievements` (lines 451-469 and, identically, 2759-2777). -/
def checkAchievements (s : GameState) : GameState × List Event :=
  runAchievements achievementsTable s

/-- Source `endGame` (both variants): set the lifecycle flags and emit the
terminal event (the game-over menu text is presentation). -/
def endGame (s : GameState) (reason : String) : GameState × List Event :=
  ({ s with started := false, paused := true }, [Event.gameOver reason])

/-- JavaScript key string of a policy (used as the spawn type). -/
def PolicyName.key : PolicyName → String
  | .openBorders => "openBorders"
  | .skilledWorker => "skilledWorker"
  | .refugee => "refugee"
  | .family => "family"
  | .investor => "investor"
  | .strict => "strict"

namespace A

/-- Variant A `gameState.policyCosts` (lines 51-58). -/
def initialCosts : PolicyCosts := ⟨700, 600, 900, 400, -1500, 300⟩

/-- Variant A `getImmigrantCount` (lines 325-335). -/
def getImmigrantCount : PolicyName → ℚ
  | .openBorders => 6
  | .skilledWorker => 4
  | .refugee => 5
  | .family => 5
  | .investor => 2
  | .strict => 0

/-- Variant A `calculateYearlyBudget` (lines 97-127). -/
def calculateYearlyBudget (s : GameState) : ℚ :=
  let totalIncome := jsFloor (s.gdp * 0.25) + jsFloor (s.population * 0.5)
    + (if s.policies.investor then 1500 else 0)
  let maintenance :=
    (if s.policies.openBorders = true ∧ 0 < s.policyCosts.openBorders then s.policyCosts.openBorders else 0)
    + (if s.policies.skilledWorker = true ∧ 0 < s.policyCosts.skilledWorker then s.policyCosts.skilledWorker else 0)
    + (if s.policies.refugee = true ∧ 0 < s.policyCosts.refugee then s.policyCosts.refugee else 0)
    + (if s.policies.family = true ∧ 0 < s.policyCosts.family then s.policyCosts.family else 0)
    + (if s.policies.investor = true ∧ 0 < s.policyCosts.investor then s.policyCosts.investor else 0)
    + (if s.policies.strict = true ∧ 0 < s.policyCosts.strict then s.policyCosts.strict else 0)
  let unemployed := jsFloor (s.population * (s.unemployment / 100))
  let totalExpenses := jsFloor (s.population * 0.8) + maintenance + unemployed * 100
  totalIncome - totalExpenses

/-- Accumulator for the per-year change variables of variant A
`simulateYear` (`populationChange`, `gdpChange`, `happinessChange`,
`unemploymentChange`), the directly mutated budget, and emitted events. -/
structure Acc where
  pop : ℚ
  gdp : ℚ
  hap : ℚ
  unemp : ℚ
  budget : ℚ
  events : List Event

/-- Variant A `simulateYear`, open-borders block (lines 150-157). -/
def openBordersBlock (s : GameState) (a : Acc) : Acc :=
  if s.policies.openBorders then
    { a with pop := a.pop + 60, gdp := a.gdp + 1200, hap := a.hap - 12,
             unemp := a.unemp + 2.5,
             events := a.events ++ [Event.spawnImmigrants 6 "openBorders"] }
  else a

/-- Variant A `simulateYear`, skilled-worker block (lines 160-173). -/
def skilledWorkerBlock (s : GameState) (r : Rng) (a : Acc) : Acc :=
  if s.policies.skilledWorker then
    { a with pop := a.pop + 20 + (if r.skill < 0.15 then -3 else 0),
             gdp := a.gdp + 2200, unemp := a.unemp - 1.2, hap := a.hap - 5,
             events := a.events
               ++ (if r.skill < 0.15 then [Event.notification "skilledLeaving" "error"] else [])
               ++ [Event.spawnImmigrants 4 "skilledWorker"] }
  else a

/-- Variant A `simulateYear`, refugee block (lines 176-190); the
integration bonus reads the already-incremented year. -/
def refugeeBlock (s : GameState) (year1 : ℚ) (a : Acc) : Acc :=
  if s.policies.refugee then
    let integrated := match s.refugeeProgramStarted with
      | some t => decide (t + 2 ≤ year1)
      | none => false
    { a with pop := a.pop + 30, hap := a.hap + 8,
             gdp := a.gdp - 400 + (if integrated then 600 else 0),
             unemp := a.unemp + 1.5 - (if integrated then 1.0 else 0),
             events := a.events
               ++ (if integrated then [Event.notification "refugeeIntegrated" "success"] else [])
               ++ [Event.spawnImmigrants 5 "refugee"] }
  else a

/-- Variant A `simulateYear`, family-reunification block (lines 193-205). -/
def familyBlock (s : GameState) (r : Rng) (a : Acc) : Acc :=
  if s.policies.family then
    { a with pop := a.pop + 25 + (if r.family < 0.3 then 5 else 0),
             hap := a.hap + 15, gdp := a.gdp - 300,
             events := a.events
               ++ (if r.family < 0.3 then [Event.notification "babyBoom" "success"] else [])
               ++ [Event.spawnImmigrants 5 "family"] }
  else a

/-- Variant A `simulateYear`, investor-visa block (lines 208-222); the
corruption scandal deducts from the budget directly. -/
def investorBlock (s : GameState) (r : Rng) (a : Acc) : Acc :=
  if s.policies.investor then
    { a with pop := a.pop + 8, gdp := a.gdp + 1800,
             hap := a.hap - 8 + (if r.inv < 0.1 then -10 else 0),
             unemp := a.unemp - 0.8,
             budget := a.budget - (if r.inv < 0.1 then 1000 else 0),
             events := a.events
               ++ (if r.inv < 0.1 then [Event.notification "corruption" "error"] else [])
               ++ [Event.spawnImmigrants 2 "investor"] }
  else a

/-- Variant A `simulateYear`, strict-controls block (lines 225-237): a
modifier over the accumulated changes plus a natural-decline penalty. -/
def strictBlock (s : GameState) (a : Acc) : Acc :=
  if s.policies.strict then
    let naturalDecline := jsFloor (s.population * 0.008)
    { a with pop := jsFloor (a.pop * 0.5) - naturalDecline,
             gdp := jsFloor (a.gdp * 0.7) - jsFloor (s.gdp * 0.01),
             hap := a.hap + 20,
             events := a.events
               ++ (if 0 < naturalDecline then [Event.notification "agingPopulation" "error"] else []) }
  else a

/-- Result of the deterministic part of a variant A tick: the updated
state plus the five change values reported by `showYearSummary`. -/
structure TickOut where
  state : GameState
  chPop : ℚ
  chGdp : ℚ
  chHap : ℚ
  chUnemp : ℚ
  chBudget : ℚ
  events : List Event

/-- Variant A `simulateYear`, deterministic part (lines 132-257): year
increment, base drain and GDP noise, the six policy blocks, the clamps,
the budget ledger and the score update. -/
def statsPhase (s : GameState) (r : Rng) : TickOut :=
  let d := difficultySettings s.difficulty
  let year1 := s.year + 1
  let a0 : Acc :=
    { pop := 0,
      gdp := jsFloor (s.population / 100) + jsFloor (r.noise * 800 - 400),
      hap := -d.happinessDrain, unemp := 0, budget := s.budget, events := [] }
  let a := strictBlock s (investorBlock s r (familyBlock s r
    (refugeeBlock s year1 (skilledWorkerBlock s r (openBordersBlock s a0)))))
  let population2 := max 100 (s.population + a.pop)
  let gdp2 := max 1000 (s.gdp + a.gdp)
  let happiness2 := max 0 (min 100 (s.happiness + a.hap))
  let unemployment2 := max 0 (min 40 (s.unemployment + a.unemp))
  let sMid := { s with year := year1, population := population2, gdp := gdp2,
                       happiness := happiness2, unemployment := unemployment2,
                       budget := a.budget }
  let budgetChange := calculateYearlyBudget sMid
  let newScore := jsFloor (a.pop * 2 + a.gdp / 100 + a.hap * 3 - |a.unemp| * 20)
  { state := { sMid with budget := a.budget + budgetChange,
                         score := s.score + max (-1000) newScore },
    chPop := a.pop, chGdp := a.gdp, chHap := a.hap, chUnemp := a.unemp,
    chBudget := budgetChange, events := a.events }

/-- Variant A random event: economic boom (lines 340-350). -/
def economicBoomEffect (s : GameState) (r : Rng) : GameState × List Event :=
  let bonus := jsFloor (r.boom * 3000 + 2000)
  ({ s with gdp := s.gdp + bonus, happiness := s.happiness + 5 },
   [Event.notification "economicBoom" "success"])

/-- Variant A random event: natural disaster with three severity tiers
(lines 351-389). -/
def naturalDisasterEffect (s : GameState) (r : Rng) : GameState × List Event :=
  let tier : ℚ × ℚ × ℚ × ℚ × String :=
    if r.severity < 0.33 then (1200, 8, jsFloor (s.population * 0.002), 500, "minorFlooding")
    else if r.severity < 0.66 then (2500, 15, jsFloor (s.population * 0.005), 1000, "severeStorm")
    else (5000, 25, jsFloor (s.population * 0.01), 2000, "majorEarthquake")
  match tier with
  | (gdpLoss, happinessLoss, populationLoss, budgetCost, tag) =>
    ({ s with gdp := s.gdp - gdpLoss, happiness := s.happiness - happinessLoss,
              population := max 100 (s.population - populationLoss),
              budget := s.budget - budgetCost },
     [Event.notification tag "error"]
       ++ (if 0 < populationLoss then [Event.notification "livesLost" "error"] else []))

/-- Variant A random event: tech breakthrough (lines 390-400). -/
def techBreakthroughEffect (s : GameState) (_ : Rng) : GameState × List Event :=
  ({ s with unemployment := max 0 (s.unemployment - 2.5), gdp := s.gdp + 1500,
            budget := s.budget - 300 },
   [Event.notification "techBreakthrough" "success"])

/-- Variant A random event: cultural festival (lines 401-410). -/
def culturalFestivalEffect (s : GameState) (_ : Rng) : GameState × List Event :=
  ({ s with happiness := s.happiness + 12, budget := s.budget - 200 },
   [Event.notification "culturalFestival" "success"])

/-- Variant A random event: trade war (lines 411-420). -/
def tradeWarEffect (s : GameState) (_ : Rng) : GameState × List Event :=
  ({ s with gdp := s.gdp - 1800, unemployment := s.unemployment + 1.5 },
   [Event.notification "tradeWar" "error"])

/-- Variant A event table with its declared weights (lines 339-421). -/
def eventsList : List ((GameState → Rng → GameState × List Event) × ℚ) :=
  [ (economicBoomEffect, 0.25),
    (naturalDisasterEffect, 0.2),
    (techBreakthroughEffect, 0.15),
    (culturalFestivalEffect, 0.1),
    (tradeWarEffect, 0.1) ]

/-- Variant A `triggerRandomEvent` (lines 338-434): draw `r` uniform in
`[0, totalWeight)` and run the weighted-selection scan. -/
def triggerRandomEvent (s : GameState) (r : Rng) : GameState × List Event :=
  let totalWeight := (eventsList.map (fun e => e.2)).sum
  match chooseWeighted eventsList (r.eventSelect * totalWeight) with
  | some eff => eff s r
  | none => (s, [])

/-- Variant A `checkGameState` (lines 471-481); the population floor of
this variant is 500. -/
def checkGameState (s : GameState) : GameState × List Event :=
  if s.happiness ≤ 0 then endGame s "unhappiness"
  else if 40 ≤ s.unemployment then endGame s "unemployment"
  else if s.budget < -15000 then endGame s "bankruptcy"
  else if s.population ≤ 500 then endGame s "population"
  else (s, [])

/-- Variant A `simulateYear` (lines 129-271): deterministic phase, the
0.25-probability random event, achievements, terminal check, then the
year-summary notification. -/
def simulateYear (s : GameState) (r : Rng) : GameState × List Event :=
  if s.started = false ∨ s.paused = true then (s, [])
  else
    let t := statsPhase s r
    let afterEvent := if r.eventTrigger < 0.25 then triggerRandomEvent t.state r else (t.state, [])
    let afterAch := checkAchievements afterEvent.1
    let afterEnd := checkGameState afterAch.1
    (afterEnd.1,
     t.events ++ afterEvent.2 ++ afterAch.2 ++ afterEnd.2
       ++ [Event.yearSummary t.chPop t.chGdp t.chHap t.chUnemp t.chBudget])

/-- Variant A `togglePolicy` (lines 287-317). -/
def togglePolicy (s : GameState) (p : PolicyName) : GameState × List Event :=
  if s.started = false ∨ s.paused = true then (s, [])
  else
    let cost := s.policyCosts.get p
    let current := s.policies.get p
    if current = false ∧ s.budget < cost then
      (s, [Event.notification "insufficientBudget" "error"])
    else
      let s1 := { s with policies := s.policies.set p (!current) }
      let refOut : GameState × List Event :=
        if p = PolicyName.refugee ∧ current = false then
          ({ s1 with refugeeProgramStarted := some s1.year },
           [Event.notification "refugeeProgramInfo" "info"])
        else (s1, [])
      if refOut.1.policies.get p = true then
        ({ refOut.1 with budget := refOut.1.budget - cost },
         refOut.2 ++ [Event.notification "policyEnabled" "success",
                      Event.spawnImmigrants (getImmigrantCount p) p.key])
      else
        (refOut.1, refOut.2 ++ [Event.notification "policyDisabled" "info"])

end A

namespace B

/-- Variant B `gameState.policyCosts` (lines 1676-1683). -/
def initialCosts : PolicyCosts := ⟨500, 300, 400, 200, 100, 300⟩

/-- Variant B `getImmigrantCount` (lines 2547-2557). -/
def getImmigrantCount : PolicyName → ℚ
  | .openBorders => 60
  | .skilledWorker => 25
  | .refugee => 35
  | .family => 30
  | .investor => 12
  | .strict => 0

/-- Variant B `simulateYear` immigrant accumulation (lines 2588-2597):
sum the yields of the active policies in declaration order, then halve
(with `Math.floor`) when strict controls are active. -/
def totalImmigrants (p : Policies) : ℚ :=
  let t := (if p.openBorders then getImmigrantCount .openBorders else 0)
    + (if p.skilledWorker then getImmigrantCount .skilledWorker else 0)
    + (if p.refugee then getImmigrantCount .refugee else 0)
    + (if p.family then getImmigrantCount .family else 0)
    + (if p.investor then getImmigrantCount .investor else 0)
    + (if p.strict then getImmigrantCount .strict else 0)
  if p.strict then jsFloor (t * 0.5) else t

/-- Variant B `simulateYear`, deterministic part (lines 2586-2643):
population growth, GDP change with clamping, happiness and unemployment
updates, score (floored at zero) and the simple budget formula. -/
def statsPhase (s : GameState) (r : Rng) : GameState :=
  let d := difficultySettings s.difficulty
  let ti := totalImmigrants s.policies
  let population2 := s.population + ti
  let gdpChange :=
    (if s.policies.skilledWorker then 2500 * d.gdpMultiplier else 0)
    + (if s.policies.investor then 3500 * d.gdpMultiplier else 0)
    + (if s.policies.openBorders then (if 0.4 < r.openBorders then 1200 else -600) else 0)
    + (if s.policies.strict then -1000 else 0)
    + jsFloor (population2 / 80) * d.gdpMultiplier
    + jsFloor (r.noise * 800 - 400)
  let gdp2 := max 1000 (s.gdp + jsFloor gdpChange)
  let happinessChange := -d.happinessDrain
    + (if s.policies.family then 6 else 0)
    + (if s.policies.refugee then 4 else 0)
    + (if s.policies.strict then -6 else 0)
    + (if 15 < s.unemployment then -5 else 0)
    + (if 15000 < gdp2 then 4 else 0)
  let happiness2 := max 0 (min 100 (s.happiness + happinessChange))
  let unempChange := ti / 180 * d.unempMultiplier
    + (if s.policies.skilledWorker then -1.5 else 0)
    + (if s.policies.investor then -1.0 else 0)
    + (if s.policies.refugee then 0.7 else 0)
  let unemployment2 := max 0 (min 40 (s.unemployment + unempChange))
  let newScore := jsFloor (population2 / 80 + gdp2 / 80 + happiness2 * 2.5 - unemployment2 * 12)
  { s with year := s.year + 1, population := population2, gdp := gdp2,
           happiness := happiness2, unemployment := unemployment2,
           score := s.score + max 0 newScore,
           budget := s.budget + jsFloor (gdp2 / 3.5) }

/-- Variant B random event: economic boom (lines 2657-2666). -/
def economicBoomEffect (s : GameState) (r : Rng) : GameState × List Event :=
  let bonus := jsFloor (r.boom * 2500 + 1500)
  ({ s with gdp := s.gdp + bonus }, [Event.notification "economicBoom" "success"])

/-- Variant B random event: natural disaster (lines 2667-2676). -/
def naturalDisasterEffect (s : GameState) (_ : Rng) : GameState × List Event :=
  ({ s with happiness := s.happiness - 10, gdp := s.gdp - 800 },
   [Event.notification "naturalDisaster" "error"])

/-- Variant B random event: tech breakthrough (lines 2677-2686). -/
def techBreakthroughEffect (s : GameState) (_ : Rng) : GameState × List Event :=
  ({ s with unemployment := max 0 (s.unemployment - 2), gdp := s.gdp + 600 },
   [Event.notification "techBreakthrough" "success"])

/-- Variant B random event: cultural festival (lines 2687-2695). -/
def culturalFestivalEffect (s : GameState) (_ : Rng) : GameState × List Event :=
  ({ s with happiness := s.happiness + 8 },
   [Event.notification "culturalFestival" "success"])

/-- Variant B event table with its declared weights (lines 2656-2696). -/
def eventsList : List ((GameState → Rng → GameState × List Event) × ℚ) :=
  [ (economicBoomEffect, 0.4),
    (naturalDisasterEffect, 0.25),
    (techBreakthroughEffect, 0.25),
    (culturalFestivalEffect, 0.1) ]

/-- Variant B `triggerRandomEvent` (lines 2655-2708). -/
def triggerRandomEvent (s : GameState) (r : Rng) : GameState × List Event :=
  let totalWeight := (eventsList.map (fun e => e.2)).sum
  match chooseWeighted eventsList (r.eventSelect * totalWeight) with
  | some eff => eff s r
  | none => (s, [])

/-- Variant B `checkGameState` (lines 2779-2789); the population floor of
this variant is 100. -/
def checkGameState (s : GameState) : GameState × List Event :=
  if s.happiness ≤ 0 then endGame s "unhappiness"
  else if 40 ≤ s.unemployment then endGame s "unemployment"
  else if s.budget < -15000 then endGame s "bankruptcy"
  else if s.population ≤ 100 then endGame s "population"
  else (s, [])

/-- Variant B `simulateYear` (lines 2583-2653): deterministic phase, the
0.18-probability random event, achievements, then the terminal check. -/
def simulateYear (s : GameState) (r : Rng) : GameState × List Event :=
  if s.started = false ∨ s.paused = true then (s, [])
  else
    let s1 := statsPhase s r
    let afterEvent := if r.eventTrigger < 0.18 then triggerRandomEvent s1 r else (s1, [])
    let afterAch := checkAchievements afterEvent.1
    let afterEnd := checkGameState afterAch.1
    (afterEnd.1, afterEvent.2 ++ afterAch.2 ++ afterEnd.2)

/-- Variant B `togglePolicy` (lines 2514-2539). -/
def togglePolicy (s : GameState) (p : PolicyName) : GameState × List Event :=
  if s.started = false ∨ s.paused = true then (s, [])
  else
    let cost := s.policyCosts.get p
    let current := s.policies.get p
    if current = false ∧ s.budget < cost then
      (s, [Event.notification "insufficientBudget" "error"])
    else
      let s1 := { s with policies := s.policies.set p (!current) }
      if s1.policies.get p = true then
        ({ s1 with budget := s1.budget - cost },
         [Event.notification "policyEnabled" "success",
          Event.spawnImmigrants (getImmigrantCount p) p.key])
      else
        (s1, [Event.notification "policyDisabled" "info"])

end B

/-- Recogniser for terminal events. -/
def Event.isGameOver : Event → Bool
  | .gameOver _ => true
  | _ => false

/-- Recogniser for year-summary events. -/
def Event.isYearSummary : Event → Bool
  | .yearSummary _ _ _ _ _ => true
  | _ => false

/-- The suffix of an event trace strictly after the first terminal
(game-over) event; empty when no terminal event occurs. -/
def afterGameOver : List Event → List Event
  | [] => []
  | e :: rest => if e.isGameOver = true then rest else afterGameOver rest

/-- Specification-side list of the four terminal conditions in their
stated priority order (happiness, unemployment, budget, population),
parameterised by the variant's population floor. -/
def terminalConds (pfloor : ℚ) : List (String × (GameState → Bool)) :=
  [ ("unhappiness", fun s => decide (s.happiness ≤ 0)),
    ("unemployment", fun s => decide (40 ≤ s.unemployment)),
    ("bankruptcy", fun s => decide (s.budget < -15000)),
    ("population", fun s => decide (s.population ≤ pfloor)) ]

/-- The all-off policy set (the initial `gameState.policies`). -/
def noPolicies : Policies := ⟨false, false, false, false, false, false⟩

/-- A started, unpaused medium-difficulty state with the initial
statistics of the configuration (population 1000, GDP 55000, happiness
70, unemployment 5, budget 10000, year 2024). -/
def baseState : GameState :=
  { started := true, paused := false, difficulty := .medium, population := 1000,
    gdp := 55000, happiness := 70, unemployment := 5, budget := 10000, score := 0,
    year := 2024, achievements := [], refugeeProgramStarted := none,
    policies := noPolicies, policyCosts := B.initialCosts }

/-- Draws that fire no random event (`eventTrigger` is at least 0.25). -/
def rngNoEvent : Rng := ⟨0.5, 0.5, 0.5, 0.5, 0.5, 0.5, 0.5, 0.5, 0.5⟩

/-- Draws that fire the cultural-festival event in variant B
(`eventTrigger` 0, selection draw 0.95). -/
def rngFestival : Rng := ⟨0.5, 0.5, 0.5, 0.5, 0, 0.95, 0.5, 0.5, 0.5⟩

/-- State used for the C1 counterexample: near-maximal happiness so the
post-clamp festival bonus overshoots 100. -/
def c1State : GameState := { baseState with happiness := 99 }

/-- State used for the C2 counterexample and witness: happiness 1, so the
medium drain of 2 reaches the clamp at 0 and the unhappiness terminal
condition fires on the same tick. -/
def c2State : GameState := { baseState with happiness := 1, gdp := 2000 }

/-- State used for C7: only the skilled-worker policy active (per-tick
yield 25, an odd number, in variant B). -/
def c7Base : GameState :=
  { baseState with policies := { noPolicies with skilledWorker := true } }

/-- The C7 state with strict controls enabled on top of `c7Base`. -/
def c7Strict : GameState :=
  { c7Base with policies := { c7Base.policies with strict := true } }

/-- Draws for the C8 counterexample: GDP noise draw 0 gives the floor
noise value -400, making the variant A tick score contribution negative. -/
def rngLowNoise : Rng := ⟨0, 0.5, 0.5, 0.5, 0.5, 0.5, 0.5, 0.5, 0.5⟩

/-- State used for the C4 witness: population already at 5000. -/
def c4State : GameState := { baseState with population := 5000 }

/-- State used for the C5 witness: budget 100, below every policy cost of
the variant A table installed in the state. -/
def c5State : GameState :=
  { baseState with budget := 100, policyCosts := A.initialCosts }

/-- State used for the C10 witness: budget exactly equal to the
open-borders cost of the installed table. -/
def c10State : GameState := { baseState with budget := 500 }

/-- Name-and-weight table used for the C9 witness (the weights of the
variant B event table). -/
def c9Table : List (String × ℚ) :=
  [("economicBoom", 0.4), ("naturalDisaster", 0.25), ("techBreakthrough", 0.25),
   ("culturalFestival", 0.1)]

theorem jsFloor_eq_floor (q : ℚ) : jsFloor q = ((⌊q⌋ : ℤ) : ℚ) := by
  rw [jsFloor, Rat.floor_def]

theorem clamp_lower (lo hi x : ℚ) : lo ≤ max lo (min hi x) := le_max_left lo _

theorem clamp_upper (lo hi x : ℚ) (h : lo ≤ hi) : max lo (min hi x) ≤ hi :=
  max_le h (min_le_left hi x)

theorem chooseWeighted_shift {α : Type} :
    ∀ (l : List (α × ℚ)) (c r : ℚ), chooseWeighted l (r - c) = firstCumAbove l c r := by
  intro l
  induction l with
  | nil => intro c r; rfl
  | cons hd tl ih =>
    obtain ⟨a, w⟩ := hd
    intro c r
    simp only [chooseWeighted, firstCumAbove]
    by_cases h : r < c + w
    · rw [if_pos (by rwa [sub_lt_iff_lt_add']), if_pos h]
    · rw [if_neg (by rwa [sub_lt_iff_lt_add']), if_neg h, sub_sub]
      exact ih (c + w) r

theorem chooseWeighted_isSome {α : Type} :
    ∀ (l : List (α × ℚ)) (r : ℚ), (∀ p ∈ l, 0 < p.2) → 0 ≤ r →
      r < (l.map fun p => p.2).sum → (chooseWeighted l r).isSome = true := by
  intro l
  induction l with
  | nil =>
    intro r _ h0 hs
    simp only [List.map_nil, List.sum_nil] at hs
    exact absurd (lt_of_le_of_lt h0 hs) (lt_irrefl 0)
  | cons hd tl ih =>
    obtain ⟨a, w⟩ := hd
    intro r hw h0 hs
    simp only [chooseWeighted]
    by_cases h : r < w
    · rw [if_pos h]; rfl
    · rw [if_neg h]
      refine ih (r - w) (fun p hp => hw p (List.mem_cons_of_mem _ hp))
        (sub_nonneg.mpr (not_lt.mp h)) ?_
      simp only [List.map_cons, List.sum_cons] at hs
      linarith

/-- C9: for every event list and random value `r` with positive weights
and `0 ≤ r < sum(weights)`, the subtraction scan used by both
`triggerRandomEvent` variants selects some event (exactly one, since the
scan stops at the first hit), and it is precisely the first event whose
cumulative weight exceeds `r`. -/
theorem c9_chooseWeighted_correct {α : Type} (l : List (α × ℚ)) (r : ℚ)
    (hw : ∀ p ∈ l, 0 < p.2) (h0 : 0 ≤ r) (hs : r < (l.map fun p => p.2).sum) :
    chooseWeighted l r = firstCumAbove l 0 r ∧ (chooseWeighted l r).isSome = true := by
  refine ⟨?_, chooseWeighted_isSome l r hw h0 hs⟩
  have h := chooseWeighted_shift l 0 r
  rwa [sub_zero] at h

/-- C9 witness: instantiated at the variant B event table weights with
draw 0.95, which selects the cultural festival. -/
theorem c9_witness :
    chooseWeighted c9Table 0.95 = firstCumAbove c9Table 0 0.95 ∧
      (chooseWeighted c9Table 0.95).isSome = true :=
  c9_chooseWeighted_correct c9Table 0.95
    (by intro p hp; fin_cases hp <;> norm_num)
    (by norm_num)
    (by norm_num [c9Table])

/-- C3: in both variants the terminal conditions are evaluated in the
fixed priority order happiness, unemployment, budget, population (with
the variant's own floor); the first condition that holds — computed here
as `List.find?` over the priority list — and only it triggers the game
over, which clears `started`, sets `paused` and emits one terminal event
carrying the reason. -/
theorem c3_terminal_priority (s : GameState) :
    (A.checkGameState s =
      match (terminalConds 500).find? (fun p => p.2 s) with
      | some p => ({ s with started := false, paused := true }, [Event.gameOver p.1])
      | none => (s, []))
    ∧ (B.checkGameState s =
      match (terminalConds 100).find? (fun p => p.2 s) with
      | some p => ({ s with started := false, paused := true }, [Event.gameOver p.1])
      | none => (s, [])) := by
  constructor
  · by_cases h1 : s.happiness ≤ 0 <;> by_cases h2 : 40 ≤ s.unemployment <;>
      by_cases h3 : s.budget < -15000 <;> by_cases h4 : s.population ≤ 500 <;>
      simp [A.checkGameState, endGame, terminalConds, List.find?, h1, h2, h3, h4]
  · by_cases h1 : s.happiness ≤ 0 <;> by_cases h2 : 40 ≤ s.unemployment <;>
      by_cases h3 : s.budget < -15000 <;> by_cases h4 : s.population ≤ 100 <;>
      simp [B.checkGameState, endGame, terminalConds, List.find?, h1, h2, h3, h4]

/-- C5: in both variants, toggling a currently inactive policy whose cost
strictly exceeds the budget while running leaves the state untouched and
emits exactly the insufficient-budget notification. -/
theorem c5_insufficient_soft_fail (s : GameState) (p : PolicyName)
    (hs : s.started = true) (hp : s.paused = false)
    (hin : s.policies.get p = false) (hc : s.budget < s.policyCosts.get p) :
    A.togglePolicy s p = (s, [Event.notification "insufficientBudget" "error"])
    ∧ B.togglePolicy s p = (s, [Event.notification "insufficientBudget" "error"]) := by
  constructor <;> simp [A.togglePolicy, B.togglePolicy, hs, hp, hin, hc]

/-- C5 witness: budget 100 cannot afford the open-borders policy costing
700 in the installed (variant A) cost table. -/
theorem c5_witness :
    A.togglePolicy c5State .openBorders
        = (c5State, [Event.notification "insufficientBudget" "error"])
    ∧ B.togglePolicy c5State .openBorders
        = (c5State, [Event.notification "insufficientBudget" "error"]) :=
  c5_insufficient_soft_fail c5State .openBorders rfl rfl rfl
    (by norm_num [c5State, baseState, A.initialCosts, PolicyCosts.get])

/-- C6: in both variants, enabling an affordable inactive policy and then
immediately disabling it restores the policy set exactly, and the budget
reflects the net of the two applications — the upfront cost is deducted
on enable and nothing is applied on disable. -/
theorem c6_toggle_twice (s : GameState) (p : PolicyName)
    (hs : s.started = true) (hp : s.paused = false)
    (hin : s.policies.get p = false) (haff : s.policyCosts.get p ≤ s.budget) :
    ((A.togglePolicy (A.togglePolicy s p).1 p).1.policies = s.policies
      ∧ (A.togglePolicy (A.togglePolicy s p).1 p).1.budget = s.budget - s.policyCosts.get p)
    ∧ ((B.togglePolicy (B.togglePolicy s p).1 p).1.policies = s.policies
      ∧ (B.togglePolicy (B.togglePolicy s p).1 p).1.budget = s.budget - s.policyCosts.get p) := by
  have hnl : ¬ s.budget < s.policyCosts.get p := not_lt.mpr haff
  obtain ⟨st, pa, di, pop, gd, ha, un, bu, sc, yr, ac, rp, pol, co⟩ := s
  obtain ⟨po, psk, pr, pf, pi, pst⟩ := pol
  simp only at hs hp
  subst hs hp
  cases p <;>
    simp only [Policies.get, PolicyCosts.get] at hin hnl <;>
    subst hin <;>
    simp [A.togglePolicy, B.togglePolicy, Policies.get, Policies.set, PolicyCosts.get, hnl]

/-- C6 witness: enable-then-disable of open borders (cost 500) from the
base state leaves the policy set all-off and the budget at 9500. -/
theorem c6_witness :
    ((A.togglePolicy (A.togglePolicy baseState .openBorders).1 .openBorders).1.policies
        = baseState.policies
      ∧ (A.togglePolicy (A.togglePolicy baseState .openBorders).1 .openBorders).1.budget
        = baseState.budget - baseState.policyCosts.get .openBorders)
    ∧ ((B.togglePolicy (B.togglePolicy baseState .openBorders).1 .openBorders).1.policies
        = baseState.policies
      ∧ (B.togglePolicy (B.togglePolicy baseState .openBorders).1 .openBorders).1.budget
        = baseState.budget - baseState.policyCosts.get .openBorders) :=
  c6_toggle_twice baseState .openBorders rfl rfl rfl
    (by norm_num [baseState, B.initialCosts, PolicyCosts.get])

theorem get_set_self (pol : Policies) (p : PolicyName) (b : Bool) :
    (pol.set p b).get p = b := by cases p <;> rfl

/-- C10: while running, the budget check of `togglePolicy` rejects (state
unchanged, only the insufficient-budget notification) exactly when the
policy is inactive and its cost strictly exceeds the budget; enabling at
cost exactly equal to the budget succeeds and leaves budget 0; disabling
an active policy never fails the check, never changes the budget, and
emits only the disabled notification.  Both variants are covered. -/
theorem c10_budget_check (s : GameState) (p : PolicyName)
    (hs : s.started = true) (hp : s.paused = false) :
    ((A.togglePolicy s p = (s, [Event.notification "insufficientBudget" "error"]))
        ↔ (s.policies.get p = false ∧ s.budget < s.policyCosts.get p))
    ∧ ((B.togglePolicy s p = (s, [Event.notification "insufficientBudget" "error"]))
        ↔ (s.policies.get p = false ∧ s.budget < s.policyCosts.get p))
    ∧ (s.policies.get p = true →
        ((A.togglePolicy s p).1.budget = s.budget
          ∧ (A.togglePolicy s p).1.policies.get p = false
          ∧ (A.togglePolicy s p).2 = [Event.notification "policyDisabled" "info"]
          ∧ (B.togglePolicy s p).1.budget = s.budget
          ∧ (B.togglePolicy s p).1.policies.get p = false
          ∧ (B.togglePolicy s p).2 = [Event.notification "policyDisabled" "info"]))
    ∧ (s.policies.get p = false → s.policyCosts.get p = s.budget →
        ((A.togglePolicy s p).1.budget = 0
          ∧ (A.togglePolicy s p).1.policies.get p = true
          ∧ (B.togglePolicy s p).1.budget = 0
          ∧ (B.togglePolicy s p).1.policies.get p = true)) := by
  by_cases hcur : s.policies.get p = false
  · by_cases hbud : s.budget < s.policyCosts.get p
    · refine ⟨?_, ?_, ?_, ?_⟩
      · simp [A.togglePolicy, hs, hp, hcur, hbud]
      · simp [B.togglePolicy, hs, hp, hcur, hbud]
      · intro h; rw [h] at hcur; simp at hcur
      · intro _ heq; rw [heq] at hbud; exact absurd hbud (lt_irrefl _)
    · by_cases hpr : p = PolicyName.refugee
      · subst hpr
        refine ⟨?_, ?_, ?_, ?_⟩
        · simp [A.togglePolicy, hs, hp, hcur, hbud, get_set_self]
        · simp [B.togglePolicy, hs, hp, hcur, hbud, get_set_self]
        · intro h; rw [h] at hcur; simp at hcur
        · intro _ heq
          simp [A.togglePolicy, B.togglePolicy, hs, hp, hcur, hbud, get_set_self, heq]
      · refine ⟨?_, ?_, ?_, ?_⟩
        · simp [A.togglePolicy, hs, hp, hcur, hbud, hpr, get_set_self]
        · simp [B.togglePolicy, hs, hp, hcur, hbud, get_set_self]
        · intro h; rw [h] at hcur; simp at hcur
        · intro _ heq
          simp [A.togglePolicy, B.togglePolicy, hs, hp, hcur, hbud, hpr, get_set_self, heq]
  · have hcurT : s.policies.get p = true := by
      revert hcur; cases s.policies.get p <;> simp
    refine ⟨?_, ?_, ?_, ?_⟩
    · simp [A.togglePolicy, hs, hp, hcurT, get_set_self]
    · simp [B.togglePolicy, hs, hp, hcurT, get_set_self]
    · intro _
      simp [A.togglePolicy, B.togglePolicy, hs, hp, hcurT, get_set_self]
    · intro h; rw [h] at hcurT; simp at hcurT

/-- C10 witness: open borders costs exactly the budget 500 in `c10State`;
enabling succeeds and leaves budget 0 (shown here for both variants via
the last conjunct of the theorem). -/
theorem c10_witness :
    (A.togglePolicy c10State .openBorders).1.budget = 0
    ∧ (A.togglePolicy c10State .openBorders).1.policies.get .openBorders = true
    ∧ (B.togglePolicy c10State .openBorders).1.budget = 0
    ∧ (B.togglePolicy c10State .openBorders).1.policies.get .openBorders = true :=
  (c10_budget_check c10State .openBorders rfl rfl).2.2.2 rfl
    (by norm_num [c10State, baseState, B.initialCosts, PolicyCosts.get])

theorem runAchievements_shape :
    ∀ (t : List (String × (GameState → Bool))) (s : GameState),
      ∃ l, (runAchievements t s).1 = { s with achievements := s.achievements ++ l } := by
  intro t
  induction t with
  | nil => intro s; exact ⟨[], by simp [runAchievements]⟩
  | cons hd tl ih =>
    obtain ⟨id, cond⟩ := hd
    intro s
    simp only [runAchievements]
    by_cases h : id ∉ s.achievements ∧ cond s = true
    · rw [if_pos h]
      obtain ⟨l1, hl1⟩ := ih { s with achievements := s.achievements ++ [id] }
      exact ⟨[id] ++ l1, by simp [hl1]⟩
    · rw [if_neg h]
      exact ih s

theorem checkAchievements_shape (s : GameState) :
    ∃ l, (checkAchievements s).1 = { s with achievements := s.achievements ++ l } :=
  runAchievements_shape achievementsTable s

theorem checkAchievements_stats (s : GameState) :
    (checkAchievements s).1.population = s.population
    ∧ (checkAchievements s).1.gdp = s.gdp
    ∧ (checkAchievements s).1.happiness = s.happiness
    ∧ (checkAchievements s).1.unemployment = s.unemployment
    ∧ (checkAchievements s).1.score = s.score
    ∧ (checkAchievements s).1.started = s.started
    ∧ (checkAchievements s).1.paused = s.paused := by
  obtain ⟨l, hl⟩ := checkAchievements_shape s
  rw [hl]
  exact ⟨rfl, rfl, rfl, rfl, rfl, rfl, rfl⟩

theorem checkAchievements_mono (s : GameState) :
    s.achievements ⊆ (checkAchievements s).1.achievements := by
  obtain ⟨l, hl⟩ := checkAchievements_shape s
  rw [hl]
  exact List.subset_append_left _ _

theorem checkGameState_stats_A (s : GameState) :
    (A.checkGameState s).1.population = s.population
    ∧ (A.checkGameState s).1.gdp = s.gdp
    ∧ (A.checkGameState s).1.happiness = s.happiness
    ∧ (A.checkGameState s).1.unemployment = s.unemployment
    ∧ (A.checkGameState s).1.score = s.score
    ∧ (A.checkGameState s).1.achievements = s.achievements := by
  unfold A.checkGameState endGame
  split_ifs <;> exact ⟨rfl, rfl, rfl, rfl, rfl, rfl⟩

theorem checkGameState_stats_B (s : GameState) :
    (B.checkGameState s).1.population = s.population
    ∧ (B.checkGameState s).1.gdp = s.gdp
    ∧ (B.checkGameState s).1.happiness = s.happiness
    ∧ (B.checkGameState s).1.unemployment = s.unemployment
    ∧ (B.checkGameState s).1.score = s.score
    ∧ (B.checkGameState s).1.achievements = s.achievements := by
  unfold B.checkGameState endGame
  split_ifs <;> exact ⟨rfl, rfl, rfl, rfl, rfl, rfl⟩

theorem trigger_stats_A (s : GameState) (r : Rng) :
    (A.triggerRandomEvent s r).1.score = s.score
    ∧ (A.triggerRandomEvent s r).1.achievements = s.achievements
    ∧ (∀ e ∈ (A.triggerRandomEvent s r).2, e.isGameOver = false) := by
  cases hm : chooseWeighted A.eventsList
      (r.eventSelect * ((A.eventsList.map (fun e => e.2)).sum)) with
  | none => simp [A.triggerRandomEvent, hm]
  | some eff =>
    simp only [A.triggerRandomEvent, hm]
    simp only [A.eventsList, chooseWeighted] at hm
    split_ifs at hm <;> (injection hm with h; subst h) <;>
      simp only [A.economicBoomEffect, A.naturalDisasterEffect, A.techBreakthroughEffect,
        A.culturalFestivalEffect, A.tradeWarEffect] <;>
      first
        | (split_ifs <;> simp [Event.isGameOver])
        | simp [Event.isGameOver]

theorem trigger_stats_B (s : GameState) (r : Rng) :
    (B.triggerRandomEvent s r).1.population = s.population
    ∧ (B.triggerRandomEvent s r).1.score = s.score
    ∧ (B.triggerRandomEvent s r).1.achievements = s.achievements
    ∧ (∀ e ∈ (B.triggerRandomEvent s r).2, e.isGameOver = false) := by
  cases hm : chooseWeighted B.eventsList
      (r.eventSelect * ((B.eventsList.map (fun e => e.2)).sum)) with
  | none => simp [B.triggerRandomEvent, hm]
  | some eff =>
    simp only [B.triggerRandomEvent, hm]
    simp only [B.eventsList, chooseWeighted] at hm
    split_ifs at hm <;> (injection hm with h; subst h) <;>
      simp [B.economicBoomEffect, B.naturalDisasterEffect, B.techBreakthroughEffect,
        B.culturalFestivalEffect, Event.isGameOver]

theorem sub_le_add_max (a b x : ℚ) : a - b ≤ a + max (-b) x := by
  have h := le_max_left (-b) x
  linarith

theorem statsPhase_score_ge_B (s : GameState) (r : Rng) :
    s.score ≤ (B.statsPhase s r).score := by
  simp only [B.statsPhase]
  exact le_add_of_nonneg_right (le_max_left 0 _)

theorem statsPhase_pres_B (s : GameState) (r : Rng) :
    (B.statsPhase s r).achievements = s.achievements
    ∧ (B.statsPhase s r).started = s.started
    ∧ (B.statsPhase s r).paused = s.paused := by
  simp [B.statsPhase]

theorem statsPhase_score_ge_A (s : GameState) (r : Rng) :
    s.score - 1000 ≤ (A.statsPhase s r).state.score := by
  simp only [A.statsPhase]
  exact sub_le_add_max s.score 1000 _

theorem statsPhase_pres_A (s : GameState) (r : Rng) :
    (A.statsPhase s r).state.achievements = s.achievements
    ∧ (A.statsPhase s r).state.started = s.started
    ∧ (A.statsPhase s r).state.paused = s.paused := by
  simp [A.statsPhase]

/-- C8 (amended): in variant B the per-tick score contribution is floored
at 0, so the cumulative score never decreases across a tick; in variant A
the contribution is floored at -1000, so a tick can decrease the score by
at most 1000 (and, as the counterexample shows, it can actually
decrease). -/
theorem c8_score_amended (s : GameState) (r : Rng) :
    s.score ≤ (B.simulateYear s r).1.score
    ∧ s.score - 1000 ≤ (A.simulateYear s r).1.score := by
  constructor
  · by_cases hg : s.started = false ∨ s.paused = true
    · simp only [B.simulateYear, if_pos hg]
      exact le_refl _
    · have hb := statsPhase_score_ge_B s r
      by_cases het : r.eventTrigger < 0.18
      · simp only [B.simulateYear, if_neg hg, if_pos het]
        rw [(checkGameState_stats_B _).2.2.2.2.1, (checkAchievements_stats _).2.2.2.2.1,
          (trigger_stats_B _ r).2.1]
        exact hb
      · simp only [B.simulateYear, if_neg hg, if_neg het]
        rw [(checkGameState_stats_B _).2.2.2.2.1, (checkAchievements_stats _).2.2.2.2.1]
        exact hb
  · by_cases hg : s.started = false ∨ s.paused = true
    · simp only [A.simulateYear, if_pos hg]
      have h : s.score - 1000 ≤ s.score := by linarith
      exact h
    · have ha := statsPhase_score_ge_A s r
      by_cases het : r.eventTrigger < 0.25
      · simp only [A.simulateYear, if_neg hg, if_pos het]
        rw [(checkGameState_stats_A _).2.2.2.2.1, (checkAchievements_stats _).2.2.2.2.1,
          (trigger_stats_A _ r).1]
        exact ha
      · simp only [A.simulateYear, if_neg hg, if_neg het]
        rw [(checkGameState_stats_A _).2.2.2.2.1, (checkAchievements_stats _).2.2.2.2.1]
        exact ha

theorem jsFloor_nonneg (q : ℚ) (hq : 0 ≤ q) : 0 ≤ jsFloor q := by
  rw [jsFloor_eq_floor]
  exact_mod_cast Int.floor_nonneg.mpr hq

theorem totalImmigrants_nonneg (pol : Policies) : 0 ≤ B.totalImmigrants pol := by
  have hterm : ∀ (c : Bool) (q : PolicyName),
      (0 : ℚ) ≤ if c = true then B.getImmigrantCount q else 0 := by
    intro c q
    split
    · cases q <;> norm_num [B.getImmigrantCount]
    · exact le_rfl
  have hsum : (0 : ℚ) ≤
      (if pol.openBorders = true then B.getImmigrantCount .openBorders else 0)
      + (if pol.skilledWorker = true then B.getImmigrantCount .skilledWorker else 0)
      + (if pol.refugee = true then B.getImmigrantCount .refugee else 0)
      + (if pol.family = true then B.getImmigrantCount .family else 0)
      + (if pol.investor = true then B.getImmigrantCount .investor else 0)
      + (if pol.strict = true then B.getImmigrantCount .strict else 0) := by
    repeat' apply add_nonneg
    all_goals apply hterm
  simp only [B.totalImmigrants]
  by_cases h : pol.strict = true
  · rw [if_pos h]
    exact jsFloor_nonneg _ (mul_nonneg hsum (by norm_num))
  · rw [if_neg h]
    exact hsum

theorem totalImmigrants_strict (pol : Policies) (h : pol.strict = false) :
    B.totalImmigrants { pol with strict := true }
      = jsFloor ((B.totalImmigrants pol) * 0.5) := by
  simp [B.totalImmigrants, B.getImmigrantCount, h]

theorem statsPhase_pop_B (s : GameState) (r : Rng) :
    (B.statsPhase s r).population = s.population + B.totalImmigrants s.policies := by
  simp only [B.statsPhase]

theorem tick_pop_B (s : GameState) (r : Rng)
    (hg : ¬ (s.started = false ∨ s.paused = true)) :
    (B.simulateYear s r).1.population = s.population + B.totalImmigrants s.policies := by
  by_cases het : r.eventTrigger < 0.18
  · simp only [B.simulateYear, if_neg hg, if_pos het]
    rw [(checkGameState_stats_B _).1, (checkAchievements_stats _).1,
      (trigger_stats_B _ r).1, statsPhase_pop_B]
  · simp only [B.simulateYear, if_neg hg, if_neg het]
    rw [(checkGameState_stats_B _).1, (checkAchievements_stats _).1, statsPhase_pop_B]

/-- C7 (amended): for every state with strict controls off and every
fixed sequence of draws, the population contribution of a variant B tick
with strict controls additionally enabled equals the `Math.floor` of
half the contribution of the same tick without strict controls — not
exactly half, since the halving is floored. -/
theorem c7_strict_half_amended (s : GameState) (r : Rng)
    (hst : s.policies.strict = false) :
    (B.simulateYear { s with policies := { s.policies with strict := true } } r).1.population
        - s.population
      = jsFloor (((B.simulateYear s r).1.population - s.population) * 0.5) := by
  by_cases hg : s.started = false ∨ s.paused = true
  · simp only [B.simulateYear]
    rw [if_pos hg, if_pos hg]
    norm_num [jsFloor]
  · rw [tick_pop_B _ r hg, tick_pop_B { s with policies := { s.policies with strict := true } } r hg,
      add_sub_cancel_left, add_sub_cancel_left]
    exact totalImmigrants_strict s.policies hst

/-- C7 witness: the amended halving law instantiated at the
skilled-worker-only base state with event-free draws. -/
theorem c7_witness :
    (B.simulateYear { c7Base with policies := { c7Base.policies with strict := true } }
          rngNoEvent).1.population - c7Base.population
      = jsFloor (((B.simulateYear c7Base rngNoEvent).1.population
          - c7Base.population) * 0.5) :=
  c7_strict_half_amended c7Base rngNoEvent rfl

theorem statsPhase_bounds_A (s : GameState) (r : Rng) :
    0 ≤ (A.statsPhase s r).state.happiness ∧ (A.statsPhase s r).state.happiness ≤ 100
    ∧ 0 ≤ (A.statsPhase s r).state.unemployment ∧ (A.statsPhase s r).state.unemployment ≤ 40
    ∧ 100 ≤ (A.statsPhase s r).state.population ∧ 1000 ≤ (A.statsPhase s r).state.gdp := by
  simp only [A.statsPhase]
  exact ⟨clamp_lower _ _ _, clamp_upper _ _ _ (by norm_num), clamp_lower _ _ _,
    clamp_upper _ _ _ (by norm_num), le_max_left _ _, le_max_left _ _⟩

theorem statsPhase_bounds_B (s : GameState) (r : Rng) (hpop : (100 : ℚ) ≤ s.population) :
    0 ≤ (B.statsPhase s r).happiness ∧ (B.statsPhase s r).happiness ≤ 100
    ∧ 0 ≤ (B.statsPhase s r).unemployment ∧ (B.statsPhase s r).unemployment ≤ 40
    ∧ 100 ≤ (B.statsPhase s r).population ∧ 1000 ≤ (B.statsPhase s r).gdp := by
  have hti := totalImmigrants_nonneg s.policies
  simp only [B.statsPhase]
  refine ⟨clamp_lower _ _ _, clamp_upper _ _ _ (by norm_num), clamp_lower _ _ _,
    clamp_upper _ _ _ (by norm_num), ?_, le_max_left _ _⟩
  calc (100 : ℚ) ≤ s.population := hpop
    _ ≤ s.population + B.totalImmigrants s.policies := le_add_of_nonneg_right hti

/-- C1 (amended): on every tick in which the random-event draw does not
fire an event, both variants leave the clamped fields within their
bounds: happiness in [0, 100], unemployment in [0, 40], GDP at least
1000, and population at least 100 (the clamp floor; in variant B the
population never decreases, so the floor needs to hold beforehand).  The
claim's stronger form — that the bounds also hold on ticks on which a
random event fires — is refuted by the counterexample, since event
effects are applied after the clamps without re-clamping. -/
theorem c1_bounds_amended (s : GameState) (ra rb : Rng)
    (hs : s.started = true) (hp : s.paused = false)
    (hea : 0.25 ≤ ra.eventTrigger) (heb : 0.18 ≤ rb.eventTrigger)
    (hpop : (100 : ℚ) ≤ s.population) :
    (0 ≤ (A.simulateYear s ra).1.happiness ∧ (A.simulateYear s ra).1.happiness ≤ 100
      ∧ 0 ≤ (A.simulateYear s ra).1.unemployment ∧ (A.simulateYear s ra).1.unemployment ≤ 40
      ∧ 100 ≤ (A.simulateYear s ra).1.population ∧ 1000 ≤ (A.simulateYear s ra).1.gdp)
    ∧ (0 ≤ (B.simulateYear s rb).1.happiness ∧ (B.simulateYear s rb).1.happiness ≤ 100
      ∧ 0 ≤ (B.simulateYear s rb).1.unemployment ∧ (B.simulateYear s rb).1.unemployment ≤ 40
      ∧ 100 ≤ (B.simulateYear s rb).1.population ∧ 1000 ≤ (B.simulateYear s rb).1.gdp) := by
  have hg : ¬ (s.started = false ∨ s.paused = true) := by simp [hs, hp]
  constructor
  · simp only [A.simulateYear, if_neg hg, if_neg (not_lt.mpr hea)]
    rw [(checkGameState_stats_A _).2.2.1, (checkGameState_stats_A _).2.2.2.1,
      (checkGameState_stats_A _).1, (checkGameState_stats_A _).2.1,
      (checkAchievements_stats _).2.2.1, (checkAchievements_stats _).2.2.2.1,
      (checkAchievements_stats _).1, (checkAchievements_stats _).2.1]
    exact statsPhase_bounds_A s ra
  · simp only [B.simulateYear, if_neg hg, if_neg (not_lt.mpr heb)]
    rw [(checkGameState_stats_B _).2.2.1, (checkGameState_stats_B _).2.2.2.1,
      (checkGameState_stats_B _).1, (checkGameState_stats_B _).2.1,
      (checkAchievements_stats _).2.2.1, (checkAchievements_stats _).2.2.2.1,
      (checkAchievements_stats _).1, (checkAchievements_stats _).2.1]
    exact statsPhase_bounds_B s rb hpop

/-- C1 witness: the amended bounds at the base state with event-free
draws in both variants. -/
theorem c1_witness :
    (0 ≤ (A.simulateYear baseState rngNoEvent).1.happiness
      ∧ (A.simulateYear baseState rngNoEvent).1.happiness ≤ 100
      ∧ 0 ≤ (A.simulateYear baseState rngNoEvent).1.unemployment
      ∧ (A.simulateYear baseState rngNoEvent).1.unemployment ≤ 40
      ∧ 100 ≤ (A.simulateYear baseState rngNoEvent).1.population
      ∧ 1000 ≤ (A.simulateYear baseState rngNoEvent).1.gdp)
    ∧ (0 ≤ (B.simulateYear baseState rngNoEvent).1.happiness
      ∧ (B.simulateYear baseState rngNoEvent).1.happiness ≤ 100
      ∧ 0 ≤ (B.simulateYear baseState rngNoEvent).1.unemployment
      ∧ (B.simulateYear baseState rngNoEvent).1.unemployment ≤ 40
      ∧ 100 ≤ (B.simulateYear baseState rngNoEvent).1.population
      ∧ 1000 ≤ (B.simulateYear baseState rngNoEvent).1.gdp) :=
  c1_bounds_amended baseState rngNoEvent rngNoEvent rfl rfl
    (by norm_num [rngNoEvent]) (by norm_num [rngNoEvent]) (by norm_num [baseState])

theorem runAchievements_mem_ids :
    ∀ (t : List (String × (GameState → Bool))) (s : GameState) (e : Event),
      e ∈ (runAchievements t s).2 → ∃ p ∈ t, e = Event.achievementUnlocked p.1 := by
  intro t
  induction t with
  | nil => intro s e he; simp [runAchievements] at he
  | cons hd tl ih =>
    obtain ⟨id0, c0⟩ := hd
    intro s e he
    simp only [runAchievements] at he
    by_cases hf : id0 ∉ s.achievements ∧ c0 s = true
    · rw [if_pos hf] at he
      rcases List.mem_cons.mp he with h | h
      · exact ⟨(id0, c0), List.mem_cons_self _ _, h⟩
      · obtain ⟨p, hp, hpe⟩ := ih _ e h
        exact ⟨p, List.mem_cons_of_mem _ hp, hpe⟩
    · rw [if_neg hf] at he
      obtain ⟨p, hp, hpe⟩ := ih s e he
      exact ⟨p, List.mem_cons_of_mem _ hp, hpe⟩

theorem runAchievements_mem_iff :
    ∀ (t : List (String × (GameState → Bool))),
      (t.map (fun p => p.1)).Nodup →
      (∀ p ∈ t, ∀ (s : GameState) (l : List String),
        p.2 { s with achievements := l } = p.2 s) →
      ∀ (s : GameState) (p : String × (GameState → Bool)), p ∈ t →
        (Event.achievementUnlocked p.1 ∈ (runAchievements t s).2
          ↔ (p.1 ∉ s.achievements ∧ p.2 s = true)) := by
  intro t
  induction t with
  | nil => intro _ _ s p hp; simp at hp
  | cons hd tl ih =>
    obtain ⟨id0, c0⟩ := hd
    intro hnd hig s p hp
    have hnd0 : id0 ∉ tl.map (fun p => p.1) := (List.nodup_cons.mp hnd).1
    have hndtl : (tl.map (fun p => p.1)).Nodup := (List.nodup_cons.mp hnd).2
    have higtl : ∀ p ∈ tl, ∀ (s : GameState) (l : List String),
        p.2 { s with achievements := l } = p.2 s :=
      fun q hq => hig q (List.mem_cons_of_mem _ hq)
    rcases List.mem_cons.mp hp with hphd | hptl
    · subst hphd
      simp only [runAchievements]
      by_cases hf : id0 ∉ s.achievements ∧ c0 s = true
      · rw [if_pos hf]
        simp [hf]
      · rw [if_neg hf]
        constructor
        · intro hmem
          obtain ⟨q, hq, hqe⟩ := runAchievements_mem_ids tl s _ hmem
          have : id0 = q.1 := by injection hqe
          exact absurd (this ▸ List.mem_map_of_mem (fun p => p.1) hq) hnd0
        · intro hC; exact absurd hC hf
    · have hne : p.1 ≠ id0 := by
        intro h
        exact hnd0 (h ▸ List.mem_map_of_mem (fun p => p.1) hptl)
      simp only [runAchievements]
      by_cases hf : id0 ∉ s.achievements ∧ c0 s = true
      · rw [if_pos hf]
        have hstep := ih hndtl higtl { s with achievements := s.achievements ++ [id0] } p hptl
        have hcond : p.2 { s with achievements := s.achievements ++ [id0] } = p.2 s :=
          hig p hp s (s.achievements ++ [id0])
        have hmem2 : (p.1 ∉ s.achievements ++ [id0]) ↔ p.1 ∉ s.achievements := by
          simp [hne]
        rw [List.mem_cons]
        have hne2 : Event.achievementUnlocked p.1 ≠ Event.achievementUnlocked id0 := by
          simp [hne]
        constructor
        · intro h
          rcases h with h | h
          · exact absurd h hne2
          · have := (hstep.mp h)
            exact ⟨hmem2.mp this.1, hcond ▸ this.2⟩
        · intro h
          right
          exact hstep.mpr ⟨hmem2.mpr h.1, hcond.symm ▸ h.2⟩
      · rw [if_neg hf]
        exact ih hndtl higtl s p hptl

theorem runAchievements_count :
    ∀ (t : List (String × (GameState → Bool))) (s : GameState) (id : String),
      (runAchievements t s).2.count (Event.achievementUnlocked id)
        ≤ (t.map (fun p => p.1)).count id := by
  intro t
  induction t with
  | nil => intro s id; simp [runAchievements]
  | cons hd tl ih =>
    obtain ⟨id0, c0⟩ := hd
    intro s id
    simp only [runAchievements, List.map_cons]
    by_cases hf : id0 ∉ s.achievements ∧ c0 s = true
    · rw [if_pos hf]
      rw [List.count_cons, List.count_cons]
      have hih := ih { s with achievements := s.achievements ++ [id0] } id
      by_cases h : id0 = id
      · subst h
        simp only [beq_self_eq_true, if_true]
        omega
      · have h1 : (Event.achievementUnlocked id0 == Event.achievementUnlocked id) = false := by
          simp [h]
        have h2 : (id0 == id) = false := by
          simp [h]
        rw [h1, h2]
        simp only [Bool.false_eq_true, if_false]
        omega
    · rw [if_neg hf]
      refine le_trans (ih s id) ?_
      rw [List.count_cons]
      exact Nat.le_add_right _ _

theorem achievementsTable_nodup : (achievementsTable.map (fun p => p.1)).Nodup := by
  simp [achievementsTable]

theorem achievementsTable_ignores (p : String × (GameState → Bool))
    (hp : p ∈ achievementsTable) :
    ∀ (s : GameState) (l : List String), p.2 { s with achievements := l } = p.2 s := by
  fin_cases hp <;> intro s l <;> rfl

/-- C4: the unlocked-achievement set only grows.  Per run of the shared
`checkAchievements`: the prior set is contained in the new one, an
achievement event for a table entry is emitted exactly when the entry is
not yet unlocked and its predicate holds (so never again once the
identifier is in the set), and every identifier is emitted at most once.
A full tick of either variant only ever extends the set, so after the
first unlock the membership persists and the event never re-fires. -/
theorem c4_achievements (s : GameState) :
    s.achievements ⊆ (checkAchievements s).1.achievements
    ∧ (∀ p ∈ achievementsTable,
        (Event.achievementUnlocked p.1 ∈ (checkAchievements s).2
          ↔ (p.1 ∉ s.achievements ∧ p.2 s = true)))
    ∧ (∀ id : String, (checkAchievements s).2.count (Event.achievementUnlocked id) ≤ 1)
    ∧ (∀ r : Rng, s.achievements ⊆ (A.simulateYear s r).1.achievements
        ∧ s.achievements ⊆ (B.simulateYear s r).1.achievements) := by
  refine ⟨checkAchievements_mono s, ?_, ?_, ?_⟩
  · intro p hp
    exact runAchievements_mem_iff achievementsTable achievementsTable_nodup
      achievementsTable_ignores s p hp
  · intro id
    refine le_trans (runAchievements_count achievementsTable s id) ?_
    exact (List.nodup_iff_count_le_one.mp achievementsTable_nodup) id
  · intro r
    constructor
    · by_cases hg : s.started = false ∨ s.paused = true
      · simp only [A.simulateYear, if_pos hg]
        exact fun a ha => ha
      · by_cases het : r.eventTrigger < 0.25
        · simp only [A.simulateYear, if_neg hg, if_pos het]
          rw [(checkGameState_stats_A _).2.2.2.2.2]
          have h1 : ((A.triggerRandomEvent (A.statsPhase s r).state r).1).achievements
              = s.achievements := by
            rw [(trigger_stats_A _ r).2.1, (statsPhase_pres_A s r).1]
          exact h1 ▸ checkAchievements_mono _
        · simp only [A.simulateYear, if_neg hg, if_neg het]
          rw [(checkGameState_stats_A _).2.2.2.2.2]
          have h1 : ((A.statsPhase s r).state).achievements = s.achievements :=
            (statsPhase_pres_A s r).1
          exact h1 ▸ checkAchievements_mono _
    · by_cases hg : s.started = false ∨ s.paused = true
      · simp only [B.simulateYear, if_pos hg]
        exact fun a ha => ha
      · by_cases het : r.eventTrigger < 0.18
        · simp only [B.simulateYear, if_neg hg, if_pos het]
          rw [(checkGameState_stats_B _).2.2.2.2.2]
          have h1 : ((B.triggerRandomEvent (B.statsPhase s r) r).1).achievements
              = s.achievements := by
            rw [(trigger_stats_B _ r).2.2.1, (statsPhase_pres_B s r).1]
          exact h1 ▸ checkAchievements_mono _
        · simp only [B.simulateYear, if_neg hg, if_neg het]
          rw [(checkGameState_stats_B _).2.2.2.2.2]
          have h1 : ((B.statsPhase s r)).achievements = s.achievements :=
            (statsPhase_pres_B s r).1
          exact h1 ▸ checkAchievements_mono _

/-- C4 witness: in a state with population 5000 and empty achievement
set, the population-boom achievement event is emitted. -/
theorem c4_witness :
    Event.achievementUnlocked "pop_5000" ∈ (checkAchievements c4State).2 :=
  ((c4_achievements c4State).2.1 ("pop_5000", fun s => decide (5000 ≤ s.population))
      (by simp only [achievementsTable]; exact List.mem_cons_self _ _)).mpr
    ⟨by simp [c4State, baseState], by norm_num [c4State, baseState]⟩

theorem afterGameOver_append (xs ys : List Event)
    (h : ∀ e ∈ xs, e.isGameOver = false) :
    afterGameOver (xs ++ ys) = afterGameOver ys := by
  induction xs with
  | nil => rfl
  | cons e rest ih =>
    simp only [List.cons_append, afterGameOver]
    rw [if_neg (by simp [h e (List.mem_cons_self _ _)])]
    exact ih (fun x hx => h x (List.mem_cons_of_mem _ hx))

theorem clean_append {xs ys : List Event}
    (hx : ∀ e ∈ xs, e.isGameOver = false) (hy : ∀ e ∈ ys, e.isGameOver = false) :
    ∀ e ∈ xs ++ ys, e.isGameOver = false := by
  intro e he
  rcases List.mem_append.mp he with h | h
  exacts [hx e h, hy e h]

theorem clean_nil : ∀ e ∈ ([] : List Event), e.isGameOver = false := by
  intro e he
  simp at he

theorem clean_ite_notification {c : Prop} [Decidable c] (tag sev : String) :
    ∀ e ∈ (if c then [Event.notification tag sev] else []), e.isGameOver = false := by
  split
  · intro e he; simp at he; subst he; rfl
  · exact clean_nil

theorem clean_singleton_spawn (q : ℚ) (t : String) :
    ∀ e ∈ [Event.spawnImmigrants q t], e.isGameOver = false := by
  intro e he; simp at he; subst he; rfl

theorem openBordersBlock_clean (s : GameState) (a : A.Acc)
    (h : ∀ e ∈ a.events, e.isGameOver = false) :
    ∀ e ∈ (A.openBordersBlock s a).events, e.isGameOver = false := by
  unfold A.openBordersBlock
  split
  · exact clean_append h (clean_singleton_spawn 6 "openBorders")
  · exact h

theorem skilledWorkerBlock_clean (s : GameState) (r : Rng) (a : A.Acc)
    (h : ∀ e ∈ a.events, e.isGameOver = false) :
    ∀ e ∈ (A.skilledWorkerBlock s r a).events, e.isGameOver = false := by
  unfold A.skilledWorkerBlock
  split
  · exact clean_append (clean_append h (clean_ite_notification _ _))
      (clean_singleton_spawn 4 "skilledWorker")
  · exact h

theorem refugeeBlock_clean (s : GameState) (y : ℚ) (a : A.Acc)
    (h : ∀ e ∈ a.events, e.isGameOver = false) :
    ∀ e ∈ (A.refugeeBlock s y a).events, e.isGameOver = false := by
  unfold A.refugeeBlock
  split
  · exact clean_append (clean_append h (clean_ite_notification _ _))
      (clean_singleton_spawn 5 "refugee")
  · exact h

theorem familyBlock_clean (s : GameState) (r : Rng) (a : A.Acc)
    (h : ∀ e ∈ a.events, e.isGameOver = false) :
    ∀ e ∈ (A.familyBlock s r a).events, e.isGameOver = false := by
  unfold A.familyBlock
  split
  · exact clean_append (clean_append h (clean_ite_notification _ _))
      (clean_singleton_spawn 5 "family")
  · exact h

theorem investorBlock_clean (s : GameState) (r : Rng) (a : A.Acc)
    (h : ∀ e ∈ a.events, e.isGameOver = false) :
    ∀ e ∈ (A.investorBlock s r a).events, e.isGameOver = false := by
  unfold A.investorBlock
  split
  · exact clean_append (clean_append h (clean_ite_notification _ _))
      (clean_singleton_spawn 2 "investor")
  · exact h

theorem strictBlock_clean (s : GameState) (a : A.Acc)
    (h : ∀ e ∈ a.events, e.isGameOver = false) :
    ∀ e ∈ (A.strictBlock s a).events, e.isGameOver = false := by
  unfold A.strictBlock
  split
  · exact clean_append h (clean_ite_notification _ _)
  · exact h

theorem statsPhase_events_clean_A (s : GameState) (r : Rng) :
    ∀ e ∈ (A.statsPhase s r).events, e.isGameOver = false := by
  simp only [A.statsPhase]
  exact strictBlock_clean s _ (investorBlock_clean s r _ (familyBlock_clean s r _
    (refugeeBlock_clean s _ _ (skilledWorkerBlock_clean s r _
      (openBordersBlock_clean s _ clean_nil)))))

theorem checkAchievements_events_clean (s : GameState) :
    ∀ e ∈ (checkAchievements s).2, e.isGameOver = false := by
  intro e he
  obtain ⟨p, _, hpe⟩ := runAchievements_mem_ids achievementsTable s e he
  rw [hpe]
  rfl

theorem checkGameState_events_A (s : GameState) :
    (A.checkGameState s).2 = [] ∨ ∃ reason, (A.checkGameState s).2 = [Event.gameOver reason] := by
  unfold A.checkGameState endGame
  split_ifs <;> first | (right; exact ⟨_, rfl⟩) | (left; rfl)

theorem checkGameState_events_B (s : GameState) :
    (B.checkGameState s).2 = [] ∨ ∃ reason, (B.checkGameState s).2 = [Event.gameOver reason] := by
  unfold B.checkGameState endGame
  split_ifs <;> first | (right; exact ⟨_, rfl⟩) | (left; rfl)

theorem afterGameOver_tail (xs go : List Event) (e0 : Event)
    (hx : ∀ e ∈ xs, e.isGameOver = false)
    (hgo : go = [] ∨ ∃ reason, go = [Event.gameOver reason])
    (hsum : e0.isYearSummary = true) (hsum2 : e0.isGameOver = false) :
    ∀ e ∈ afterGameOver (xs ++ go ++ [e0]), e.isYearSummary = true := by
  rw [List.append_assoc, afterGameOver_append _ _ hx]
  rcases hgo with h | ⟨reason, h⟩ <;> subst h
  · simp only [List.nil_append, afterGameOver]
    rw [if_neg (by simp [hsum2])]
    intro e he
    simp [afterGameOver] at he
  · intro e he
    simp [afterGameOver, Event.isGameOver] at he
    subst he
    exact hsum

/-- C2 (amended): once a tick's terminal check has set `started = false`,
the only effect variant A still emits within that tick is the final
year-summary notification (refuting the claim that no effect follows at
all); variant B, which does not emit a year summary, emits nothing after
the game-over event. -/
theorem c2_post_gameover_amended (s : GameState) (ra rb : Rng) :
    (∀ e ∈ afterGameOver (A.simulateYear s ra).2, e.isYearSummary = true)
    ∧ afterGameOver (B.simulateYear s rb).2 = [] := by
  constructor
  · by_cases hg : s.started = false ∨ s.paused = true
    · simp only [A.simulateYear, if_pos hg]
      intro e he
      simp [afterGameOver] at he
    · by_cases het : ra.eventTrigger < 0.25
      · simp only [A.simulateYear, if_neg hg, if_pos het]
        exact afterGameOver_tail _ _ _
          (clean_append (clean_append (statsPhase_events_clean_A s ra)
            (trigger_stats_A _ ra).2.2) (checkAchievements_events_clean _))
          (checkGameState_events_A _) rfl rfl
      · simp only [A.simulateYear, if_neg hg, if_neg het]
        exact afterGameOver_tail _ _ _
          (clean_append (clean_append (statsPhase_events_clean_A s ra) clean_nil)
            (checkAchievements_events_clean _))
          (checkGameState_events_A _) rfl rfl
  · by_cases hg : s.started = false ∨ s.paused = true
    · simp only [B.simulateYear, if_pos hg]
      rfl
    · have htail : ∀ x : GameState, afterGameOver (B.checkGameState x).2 = [] := by
        intro x
        rcases checkGameState_events_B x with h | ⟨reason, h⟩ <;> rw [h]
        · rfl
        · simp [afterGameOver, Event.isGameOver]
      by_cases het : rb.eventTrigger < 0.18
      · simp only [B.simulateYear, if_neg hg, if_pos het]
        rw [List.append_assoc,
          afterGameOver_append _ _ (trigger_stats_B _ rb).2.2.2,
          afterGameOver_append _ _ (checkAchievements_events_clean _)]
        exact htail _
      · simp only [B.simulateYear, if_neg hg, if_neg het]
        rw [List.append_assoc,
          afterGameOver_append _ _ clean_nil,
          afterGameOver_append _ _ (checkAchievements_events_clean _)]
        exact htail _

/-- C1 counterexample: starting from happiness 99 (all other statistics
at their defaults), a variant B tick on which the cultural-festival event
fires ends with happiness 108, violating the claimed bound of 100 —
random-event effects are applied after the clamps. -/
theorem c1_counterexample : 100 < (B.simulateYear c1State rngFestival).1.happiness := by
  norm_num [B.simulateYear, B.statsPhase, B.totalImmigrants, B.getImmigrantCount,
    B.triggerRandomEvent, B.eventsList, chooseWeighted, B.economicBoomEffect,
    B.naturalDisasterEffect, B.techBreakthroughEffect, B.culturalFestivalEffect,
    checkAchievements, achievementsTable, runAchievements, B.checkGameState,
    endGame, c1State, baseState, rngFestival, noPolicies, B.initialCosts,
    difficultySettings, jsFloor]
  all_goals try simp
  all_goals try norm_num

/-- C2 counterexample: on a variant A tick whose terminal check fires the
unhappiness game over, the events emitted after the game-over transition
are not empty — the year-summary notification still follows. -/
theorem c2_counterexample :
    afterGameOver (A.simulateYear c2State rngNoEvent).2
      = [Event.yearSummary 0 10 (-2) 0 (-4798)] := by
  norm_num [A.simulateYear, A.statsPhase, A.openBordersBlock, A.skilledWorkerBlock,
    A.refugeeBlock, A.familyBlock, A.investorBlock, A.strictBlock, A.calculateYearlyBudget,
    A.checkGameState, checkAchievements, achievementsTable, runAchievements, endGame,
    afterGameOver, Event.isGameOver, c2State, baseState, rngNoEvent, noPolicies,
    B.initialCosts, difficultySettings, jsFloor]
  all_goals try simp
  all_goals try norm_num

/-- C2 witness: the amended statement instantiated at the unhappiness
game-over tick — the one event after the transition is the year summary,
and variant B emits nothing after a game over. -/
theorem c2_witness :
    Event.isYearSummary (Event.yearSummary 0 10 (-2) 0 (-4798)) = true
    ∧ afterGameOver (B.simulateYear c2State rngNoEvent).2 = [] :=
  ⟨(c2_post_gameover_amended c2State rngNoEvent rngNoEvent).1
      (Event.yearSummary 0 10 (-2) 0 (-4798))
      (by
        norm_num [A.simulateYear, A.statsPhase, A.openBordersBlock, A.skilledWorkerBlock,
          A.refugeeBlock, A.familyBlock, A.investorBlock, A.strictBlock,
          A.calculateYearlyBudget, A.checkGameState, checkAchievements, achievementsTable,
          runAchievements, endGame, afterGameOver, Event.isGameOver, c2State, baseState,
          rngNoEvent, noPolicies, B.initialCosts, difficultySettings, jsFloor]
        all_goals try simp
        all_goals try norm_num),
   (c2_post_gameover_amended c2State rngNoEvent rngNoEvent).2⟩

/-- C7 counterexample: with only the skilled worker policy (per-tick
yield 25), adding strict controls yields a population contribution of 12
for the tick, not exactly half of 25. -/
theorem c7_counterexample :
    (B.simulateYear c7Strict rngNoEvent).1.population - c7Base.population = 12
    ∧ (B.simulateYear c7Base rngNoEvent).1.population - c7Base.population = 25
    ∧ ¬ ((12 : ℚ) = 25 / 2) := by
  refine ⟨?_, ?_, by norm_num⟩ <;>
  · norm_num [B.simulateYear, B.statsPhase, B.totalImmigrants, B.getImmigrantCount,
      checkAchievements, achievementsTable, runAchievements, B.checkGameState,
      endGame, c7Strict, c7Base, baseState, rngNoEvent, noPolicies, B.initialCosts,
      difficultySettings, jsFloor]
    all_goals try simp
    all_goals try norm_num

/-- C8 counterexample: a variant A tick from the default state with the
lowest GDP-noise draw adds the (negative) floored contribution -10, so
the cumulative score decreases. -/
theorem c8_counterexample :
    (A.simulateYear baseState rngLowNoise).1.score < baseState.score := by
  norm_num [A.simulateYear, A.statsPhase, A.openBordersBlock, A.skilledWorkerBlock,
    A.refugeeBlock, A.familyBlock, A.investorBlock, A.strictBlock, A.calculateYearlyBudget,
    A.checkGameState, checkAchievements, achievementsTable, runAchievements, endGame,
    baseState, rngLowNoise, noPolicies, B.initialCosts, difficultySettings, jsFloor]
  all_goals try simp
  all_goals try norm_num
